import Mathlib

/-!
Verification development for the real-estate listing backend
(`src/main.py`, `src/schemas.py`).

Documents of the store are modelled as ordered association lists from
string keys to JSON-like values, mirroring Python dictionaries as the
code uses them (unique keys, insertion order preserved, in-place update
keeps the position of a key).  Handlers are modelled as pure functions
that thread the relevant collection of the store explicitly and return
`Except` values: an `Except.error` is a raised `HTTPException` (or a
body-validation failure), an `Except.ok` is a normal JSON response.
-/

set_option autoImplicit false

namespace RealEstate

/-- JSON-like values as they occur in request bodies and stored documents:
null, booleans, integers, non-integral numbers, strings, date-time values
(carried by their ISO-8601 rendering), store object identifiers, and lists. -/
inductive Val where
  | null : Val
  | bool (b : Bool) : Val
  | int (n : Int) : Val
  | float (q : Rat) : Val
  | str (s : String) : Val
  | dtime (iso : String) : Val
  | oid (hex : String) : Val
  | list (elems : List Val) : Val

/-- A document / Python dict: ordered key-value pairs. -/
abbrev Doc := List (String × Val)

/-- A collection of the store, in insertion order. -/
abbrev Store := List Doc

/-- `d.get(k)` / `d[k]` read: the value at the first occurrence of key `k`. -/
def lookupVal (d : Doc) (k : String) : Option Val :=
  match d with
  | [] => none
  | (k', v) :: rest => if k' == k then some v else lookupVal rest k

/-- The keys of a document, in order. -/
def docKeys (d : Doc) : List String :=
  d.map (fun kv => kv.1)

/-- `d.pop(k)`: the document with key `k` removed. -/
def eraseKey (d : Doc) (k : String) : Doc :=
  d.filter (fun kv => !(kv.1 == k))

/-- `d[k] = v`: update the entry in place when the key exists (keeping its
position), otherwise append the new pair at the end, as Python dict
assignment does. -/
def setKey (d : Doc) (k : String) (v : Val) : Doc :=
  match d with
  | [] => [(k, v)]
  | (k', w) :: rest => if k' == k then (k, v) :: rest else (k', w) :: setKey rest k v

/-- Python truthiness of a value, as used by `if d.get("_id"):` and
`if not doc:`. -/
def pyTruthy : Val → Bool
  | .null => false
  | .bool b => b
  | .int n => !(n == 0)
  | .float q => !(q == 0)
  | .str s => !(s == "")
  | .dtime _ => true
  | .oid _ => true
  | .list l => !l.isEmpty

/-- `str(datetime)` uses a space between date and time where `isoformat`
uses `T`. -/
def isoSpace (s : String) : String :=
  s.map (fun c => if c == 'T' then ' ' else c)

/-- Modelled boundary: the Python builtin `str` on the values above.  In the
program the only value `str` is applied to by `to_public_id` is the stored
object identifier (rendered as its hexadecimal text); the remaining cases fix
a definite rendering for the model. -/
def pyStr : Val → String
  | .null => "None"
  | .bool b => if b then "True" else "False"
  | .int n => toString n
  | .float q => toString q
  | .str s => s
  | .dtime iso => isoSpace iso
  | .oid hex => hex
  | .list _ => "[...]"

/-- The body of the datetime-to-ISO loop of `to_public_id`: a date or
date-time value is replaced by `val.isoformat()`, every other value is left
as it is.  The loop only touches top-level values. -/
def renderVal : Val → Val
  | .dtime iso => .str iso
  | v => v

/-- The datetime-to-ISO pass of `to_public_id` over all entries. -/
def renderDoc (d : Doc) : Doc :=
  d.map (fun kv => (kv.1, renderVal kv.2))

/-- `to_public_id` (src/main.py lines 22-36).  A falsy argument (absent
document or empty mapping) is returned unchanged; otherwise the code works on
the copy `d = dict(doc)`: when `d.get("_id")` is truthy the entry is popped
and re-emitted as `d["id"] = str(...)`, and finally every top-level date or
date-time value is replaced by its ISO rendering. -/
def toPublicId : Option Doc → Option Doc
  | none => none
  | some d =>
    if d.isEmpty then some d
    else
      let d1 : Doc :=
        match lookupVal d "_id" with
        | some v =>
          if pyTruthy v then setKey (eraseKey d "_id") "id" (.str (pyStr v)) else d
        | none => d
      some (renderDoc d1)

/-- `to_public_id` together with the caller-visible state of its argument
after the call: the source copies the input (`d = dict(doc)`) and mutates
only the copy, so the argument mapping is returned to the caller unchanged. -/
def toPublicIdRun (doc : Option Doc) : Option Doc × Option Doc :=
  (doc, toPublicId doc)

/-- `bson.ObjectId` accepts exactly the 24-character hexadecimal strings. -/
def isValidObjectId (s : String) : Bool :=
  s.length == 24 && s.toList.all (fun c => c.isDigit || ('a' ≤ c && c ≤ 'f') || ('A' ≤ c && c ≤ 'F'))

/-- `str(ObjectId(s))` renders the identifier in lowercase hexadecimal. -/
def oidCanon (s : String) : String :=
  String.mk (s.toList.map Char.toLower)

/-- HTTP errors raised by handlers, and body-validation failures detected by
the routing layer before a handler runs (a 422 carrying the failing field). -/
inductive ApiError where
  | validation (field : String) : ApiError
  | http (statusCode : Nat) (detail : String) : ApiError

/-- The HTTP status of an error response. -/
def ApiError.statusOf : ApiError → Nat
  | .validation _ => 422
  | .http s _ => s

/-- The database handle of the diagnostic endpoint: its resolved name
and the outcome of `list_collection_names()`, which may raise (modelled as
`Except.error` carrying `str(e)`). -/
structure DbHandle where
  name : String
  listCollectionNames : Except String (List String)

/-- The diagnostic object returned by `GET /test`. -/
structure TestResponse where
  backend : String
  database : String
  database_url : String
  database_name : String
  connection_status : String
  collections : List String

/-- `test_database` (src/main.py lines 44-67).  The response dict starts from
the all-failure defaults and is updated step by step; the inner `try` around
`list_collection_names` turns a raised error into the truncated warning text.
Under this model nothing outside the inner `try` can raise, so the outer
`except` branch is unreachable and the handler always returns normally. -/
def test_database (db : Option DbHandle) (databaseUrlSet : Bool) : Except ApiError TestResponse :=
  let response : TestResponse :=
    { backend := "✅ Running"
      database := "❌ Not Available"
      database_url := "❌ Not Set"
      database_name := "❌ Not Set"
      connection_status := "Not Connected"
      collections := [] }
  Except.ok <|
    match db with
    | none => response
    | some h =>
      let response := { response with
        database := "✅ Available"
        database_url := if databaseUrlSet then "✅ Set" else "❌ Not Set"
        database_name := h.name
        connection_status := "Connected" }
      match h.listCollectionNames with
      | .ok cols => { response with collections := cols, database := "✅ Connected & Working" }
      | .error e => { response with database := "⚠️ Connected but Error: " ++ e.take 60 }

/-- Modelled boundary: the URL strings accepted by the external validation
library for `HttpUrl` fields (an http or https scheme followed by a host).
The claims do not depend on the exact accepted set. -/
def isHttpUrl (s : String) : Bool :=
  (s.startsWith "http://" && s.length > 7) || (s.startsWith "https://" && s.length > 8)

/-- Modelled boundary: the date-time strings accepted by the external
validation library (ISO-8601 shape YYYY-MM-DDTHH:MM:SS).  The claims do not
depend on the exact accepted set. -/
def isIsoDatetime (s : String) : Bool :=
  match s.toList with
  | [y1, y2, y3, y4, '-', m1, m2, '-', d1, d2, 'T', h1, h2, ':', n1, n2, ':', s1, s2] =>
    [y1, y2, y3, y4, m1, m2, d1, d2, h1, h2, n1, n2, s1, s2].all Char.isDigit
  | _ => false

/-- A required `str` field: present string value, anything else fails with the
field name. -/
def reqStr (raw : Doc) (k : String) : Except String String :=
  match lookupVal raw k with
  | some (.str s) => .ok s
  | some _ => .error k
  | none => .error k

/-- A `str` field with a declared default (such as `status`): an omitted field
takes the default, a present value must be a string. -/
def reqStrD (raw : Doc) (k : String) (dflt : String) : Except String String :=
  match lookupVal raw k with
  | none => .ok dflt
  | some (.str s) => .ok s
  | some _ => .error k

/-- An `Optional[str]` field defaulting to `None`. -/
def optStr (raw : Doc) (k : String) : Except String (Option String) :=
  match lookupVal raw k with
  | none => .ok none
  | some .null => .ok none
  | some (.str s) => .ok (some s)
  | some _ => .error k

/-- An `Optional[str]` field with a non-`None` default (such as `source`):
omitted takes the default, an explicit null gives `None`. -/
def optStrD (raw : Doc) (k : String) (dflt : String) : Except String (Option String) :=
  match lookupVal raw k with
  | none => .ok (some dflt)
  | some .null => .ok none
  | some (.str s) => .ok (some s)
  | some _ => .error k

/-- A required `int` field with `ge=0`. -/
def reqIntGe0 (raw : Doc) (k : String) : Except String Int :=
  match lookupVal raw k with
  | some (.int n) => if 0 ≤ n then .ok n else .error k
  | some _ => .error k
  | none => .error k

/-- An `Optional[int]` field. -/
def optInt (raw : Doc) (k : String) : Except String (Option Int) :=
  match lookupVal raw k with
  | none => .ok none
  | some .null => .ok none
  | some (.int n) => .ok (some n)
  | some _ => .error k

/-- A required `float` field with `ge=0`; an integral number is accepted and
coerced. -/
def reqFloatGe0 (raw : Doc) (k : String) : Except String Rat :=
  match lookupVal raw k with
  | some (.float q) => if 0 ≤ q then .ok q else .error k
  | some (.int n) => if 0 ≤ (n : Rat) then .ok (n : Rat) else .error k
  | some _ => .error k
  | none => .error k

/-- An `Optional[float]` field; an integral number is accepted and coerced. -/
def optFloat (raw : Doc) (k : String) : Except String (Option Rat) :=
  match lookupVal raw k with
  | none => .ok none
  | some .null => .ok none
  | some (.float q) => .ok (some q)
  | some (.int n) => .ok (some (n : Rat))
  | some _ => .error k

/-- The elements of a `List[HttpUrl]` value: every entry must be a string
passing URL validation. -/
def urlStrs (k : String) : List Val → Except String (List String)
  | [] => .ok []
  | .str s :: rest =>
    if isHttpUrl s then do
      let l ← urlStrs k rest
      pure (s :: l)
    else .error k
  | _ :: _ => .error k

/-- A `List[HttpUrl]` field with `default_factory=list`. -/
def urlListD (raw : Doc) (k : String) : Except String (List String) :=
  match lookupVal raw k with
  | none => .ok []
  | some (.list vs) => urlStrs k vs
  | some _ => .error k

/-- The elements of a `List[str]` value. -/
def strStrs (k : String) : List Val → Except String (List String)
  | [] => .ok []
  | .str s :: rest => do
    let l ← strStrs k rest
    pure (s :: l)
  | _ :: _ => .error k

/-- A `List[str]` field with `default_factory=list`. -/
def strListD (raw : Doc) (k : String) : Except String (List String) :=
  match lookupVal raw k with
  | none => .ok []
  | some (.list vs) => strStrs k vs
  | some _ => .error k

/-- An `Optional[HttpUrl]` field. -/
def optUrl (raw : Doc) (k : String) : Except String (Option String) :=
  match lookupVal raw k with
  | none => .ok none
  | some .null => .ok none
  | some (.str s) => if isHttpUrl s then .ok (some s) else .error k
  | some _ => .error k

/-- An `Optional[datetime]` field; an accepted date-time string is carried by
its ISO text. -/
def optDtime (raw : Doc) (k : String) : Except String (Option String) :=
  match lookupVal raw k with
  | none => .ok none
  | some .null => .ok none
  | some (.str s) => if isIsoDatetime s then .ok (some s) else .error k
  | some _ => .error k

/-- The `Property` record of src/schemas.py (lines 17-68), after validation.
Date-time fields are carried by their ISO text, URL fields by their accepted
string. -/
structure Property where
  title : String
  address : String
  city : String
  state : String
  zipcode : String
  price : Int
  status : String
  beds : Rat
  baths : Rat
  sqft : Int
  lot_size : Option Rat
  year_built : Option Int
  property_type : Option String
  hoa_fee : Option Rat
  price_per_sqft : Option Rat
  days_on_market : Option Int
  photos : List String
  video_url : Option String
  virtual_tour_url : Option String
  description : Option String
  features : List String
  latitude : Option Rat
  longitude : Option Rat
  schools : List String
  open_house : List String
  agent_name : Option String
  agent_phone : Option String
  agent_email : Option String
  created_at : Option String
  updated_at : Option String

/-- Validation of a request body against the `Property` schema, field by
field in declaration order; unknown keys of the body are ignored.  An error
carries the name of a failing field (422 detail). -/
def parseProperty (raw : Doc) : Except String Property := do
  let title ← reqStr raw "title"
  let address ← reqStr raw "address"
  let city ← reqStr raw "city"
  let state ← reqStr raw "state"
  let zipcode ← reqStr raw "zipcode"
  let price ← reqIntGe0 raw "price"
  let status ← reqStrD raw "status" "For Sale"
  let beds ← reqFloatGe0 raw "beds"
  let baths ← reqFloatGe0 raw "baths"
  let sqft ← reqIntGe0 raw "sqft"
  let lot_size ← optFloat raw "lot_size"
  let year_built ← optInt raw "year_built"
  let property_type ← optStr raw "property_type"
  let hoa_fee ← optFloat raw "hoa_fee"
  let price_per_sqft ← optFloat raw "price_per_sqft"
  let days_on_market ← optInt raw "days_on_market"
  let photos ← urlListD raw "photos"
  let video_url ← optUrl raw "video_url"
  let virtual_tour_url ← optUrl raw "virtual_tour_url"
  let description ← optStr raw "description"
  let features ← strListD raw "features"
  let latitude ← optFloat raw "latitude"
  let longitude ← optFloat raw "longitude"
  let schools ← strListD raw "schools"
  let open_house ← strListD raw "open_house"
  let agent_name ← optStr raw "agent_name"
  let agent_phone ← optStr raw "agent_phone"
  let agent_email ← optStr raw "agent_email"
  let created_at ← optDtime raw "created_at"
  let updated_at ← optDtime raw "updated_at"
  pure { title := title, address := address, city := city, state := state,
         zipcode := zipcode, price := price, status := status, beds := beds,
         baths := baths, sqft := sqft, lot_size := lot_size,
         year_built := year_built, property_type := property_type,
         hoa_fee := hoa_fee, price_per_sqft := price_per_sqft,
         days_on_market := days_on_market, photos := photos,
         video_url := video_url, virtual_tour_url := virtual_tour_url,
         description := description, features := features,
         latitude := latitude, longitude := longitude, schools := schools,
         open_house := open_house, agent_name := agent_name,
         agent_phone := agent_phone, agent_email := agent_email,
         created_at := created_at, updated_at := updated_at }

/-- An optional string as a stored value. -/
def optStrVal : Option String → Val
  | none => .null
  | some s => .str s

/-- An optional number as a stored value. -/
def optFloatVal : Option Rat → Val
  | none => .null
  | some q => .float q

/-- An optional integer as a stored value. -/
def optIntVal : Option Int → Val
  | none => .null
  | some n => .int n

/-- An optional date-time as a stored value. -/
def optDtimeVal : Option String → Val
  | none => .null
  | some iso => .dtime iso

/-- `model_dump` of a validated `Property`: the plain field-map in field
declaration order; omitted optionals are explicit nulls. -/
def dumpProperty (p : Property) : Doc :=
  [("title", .str p.title), ("address", .str p.address), ("city", .str p.city),
   ("state", .str p.state), ("zipcode", .str p.zipcode), ("price", .int p.price),
   ("status", .str p.status), ("beds", .float p.beds), ("baths", .float p.baths),
   ("sqft", .int p.sqft), ("lot_size", optFloatVal p.lot_size),
   ("year_built", optIntVal p.year_built), ("property_type", optStrVal p.property_type),
   ("hoa_fee", optFloatVal p.hoa_fee), ("price_per_sqft", optFloatVal p.price_per_sqft),
   ("days_on_market", optIntVal p.days_on_market),
   ("photos", .list (p.photos.map .str)), ("video_url", optStrVal p.video_url),
   ("virtual_tour_url", optStrVal p.virtual_tour_url),
   ("description", optStrVal p.description),
   ("features", .list (p.features.map .str)),
   ("latitude", optFloatVal p.latitude), ("longitude", optFloatVal p.longitude),
   ("schools", .list (p.schools.map .str)),
   ("open_house", .list (p.open_house.map .str)),
   ("agent_name", optStrVal p.agent_name), ("agent_phone", optStrVal p.agent_phone),
   ("agent_email", optStrVal p.agent_email),
   ("created_at", optDtimeVal p.created_at), ("updated_at", optDtimeVal p.updated_at)]

/-- The inquiry request body `InquiryIn` (src/main.py lines 96-102). -/
structure InquiryIn where
  property_id : Option String := none
  name : String
  email : String
  phone : Option String := none
  message : Option String := none
  source : Option String := some "website"

/-- Validation of a request body against `InquiryIn`, field by field in
declaration order; unknown keys of the body (such as a caller-supplied
`created_at`) are ignored. -/
def parseInquiryIn (raw : Doc) : Except String InquiryIn := do
  let property_id ← optStr raw "property_id"
  let name ← reqStr raw "name"
  let email ← reqStr raw "email"
  let phone ← optStr raw "phone"
  let message ← optStr raw "message"
  let source ← optStrD raw "source" "website"
  pure { property_id := property_id, name := name, email := email,
         phone := phone, message := message, source := source }

/-- `payload.model_dump()` of an `InquiryIn`: the plain field-map in field
declaration order. -/
def dumpInquiry (q : InquiryIn) : Doc :=
  [("property_id", optStrVal q.property_id), ("name", .str q.name),
   ("email", .str q.email), ("phone", optStrVal q.phone),
   ("message", optStrVal q.message), ("source", optStrVal q.source)]

/-- The success body of the inquiry endpoint. -/
structure InquiryResp where
  id : String
  status : String

/-- Modelled from the spec: the data-access file `database.py` is not under
src/ (only its callers are).  Per section 4.2, `create_document` converts a
structured record to a plain field-map, inserts it as a new document into the
collection, and returns the store-assigned unique identifier as a string.
The fresh identifier is a parameter; the store prepends its `_id` field to
the inserted map. -/
def create_document (store : Store) (payload : Doc) (freshOid : String) : String × Store :=
  (freshOid, store ++ [("_id", Val.oid freshOid) :: payload])

/-- `db["property"].find_one({"_id": ObjectId(o)})`: the first document of
the collection whose `_id` equals the given identifier. -/
def findOneById (store : Store) (o : String) : Option Doc :=
  store.find? fun d =>
    match lookupVal d "_id" with
    | some (.oid s) => s == o
    | _ => false

/-- `get_property` (src/main.py lines 77-85).  A malformed identifier makes
`ObjectId(property_id)` raise inside the `try` (as does an absent database
handle at `db["property"]`), so `doc` becomes `None`; a falsy `doc` raises
404, otherwise the public shape of the document is returned. -/
def get_property (property_id : String) (db : Option Store) : Except ApiError (Option Doc) :=
  let doc : Option Doc :=
    match db with
    | none => none
    | some store =>
      if isValidObjectId property_id then findOneById store (oidCanon property_id) else none
  match doc with
  | none => .error (.http 404 "Property not found")
  | some d =>
    if d.isEmpty then .error (.http 404 "Property not found")
    else .ok (toPublicId (some d))

/-- `create_property` (src/main.py lines 88-92), together with the
body-validation step the routing layer runs before the handler: a body that
does not validate is rejected with 422 and the handler never runs.  On
success the handler inserts the dumped payload, re-reads the document by the
returned identifier, and returns its public shape.  A non-parsing returned
identifier would make the unguarded `ObjectId(new_id)` raise and propagate as
a server error. -/
def create_property (raw : Doc) (store : Store) (freshOid : String) :
    Except ApiError (Option Doc) × Store :=
  match parseProperty raw with
  | .error f => (.error (.validation f), store)
  | .ok p =>
    let r := create_document store (dumpProperty p) freshOid
    if isValidObjectId r.1 then
      (.ok (toPublicId (findOneById r.2 (oidCanon r.1))), r.2)
    else
      (.error (.http 500 "Internal Server Error"), r.2)

/-- Whether `if payload.property_id:` takes the check branch: the field must
be present and its value a non-empty string. -/
def pyTruthyOptStr : Option String → Bool
  | none => false
  | some s => !(s == "")

/-- `create_inquiry` (src/main.py lines 105-115).  Only a truthy
`property_id` is syntax-checked; a failing check raises 400 before anything
is persisted.  Otherwise the dumped payload is inserted into the inquiry
collection and the new identifier is returned with status "received". -/
def create_inquiry (payload : InquiryIn) (store : Store) (freshOid : String) :
    Except ApiError InquiryResp × Store :=
  if pyTruthyOptStr payload.property_id &&
     !(isValidObjectId (payload.property_id.getD "")) then
    (.error (.http 400 "Invalid property_id"), store)
  else
    let r := create_document store (dumpInquiry payload) freshOid
    (.ok { id := r.1, status := "received" }, r.2)

/-- The inquiry endpoint including the body-validation step run by the
routing layer. -/
def create_inquiry_endpoint (raw : Doc) (store : Store) (freshOid : String) :
    Except ApiError InquiryResp × Store :=
  match parseInquiryIn raw with
  | .error f => (.error (.validation f), store)
  | .ok q => create_inquiry q store freshOid

/-- The hard-coded sample listing of the seed endpoint
(src/main.py lines 119-171). -/
def sampleProperty : Property :=
  { title := "Modern Craftsman with Valley Views"
    address := "1234 Maple Ridge Dr"
    city := "San Jose"
    state := "CA"
    zipcode := "95120"
    price := 1495000
    status := "For Sale"
    beds := 4
    baths := 3.5
    sqft := 2650
    lot_size := some 0.25
    year_built := some 2016
    property_type := some "Single Family"
    hoa_fee := some 85.0
    price_per_sqft := some 564.15
    days_on_market := some 3
    photos := ["https://images.unsplash.com/photo-1600585154526-990dced4db0d",
               "https://images.unsplash.com/photo-1560185127-6ed189bf02f4",
               "https://images.unsplash.com/photo-1560448075-bb4caa6c0f11",
               "https://images.unsplash.com/photo-1505691723518-36a5ac3b2d95"]
    video_url := none
    virtual_tour_url := none
    description := some ("This sun‑filled craftsman blends modern amenities with timeless charm. Wide-plank floors, chef’s kitchen with quartz counters, and an indoor/outdoor layout that flows to a flat backyard and pergola. Primary suite with balcony and spa bath.")
    features := ["Chef’s kitchen with 36\" range", "Walk-in pantry",
                 "Vaulted great room", "Upstairs laundry", "EV-ready garage",
                 "Owned solar", "Dual-zone HVAC", "Smart irrigation"]
    latitude := some 37.227
    longitude := some (-121.89)
    schools := ["Williams Elementary (9/10)", "Bret Harte Middle (8/10)",
                "Leland High (10/10)"]
    open_house := ["Sat 1–4 PM", "Sun 12–3 PM"]
    agent_name := some "Alex Morgan"
    agent_phone := some "(408) 555-0133"
    agent_email := some "alex@example.com"
    created_at := none
    updated_at := none }

/-- `seed_sample_property` (src/main.py lines 119-176): insert the sample
listing, re-read it by the returned identifier, and return its public
shape. -/
def seed_sample_property (store : Store) (freshOid : String) :
    Except ApiError (Option Doc) × Store :=
  let r := create_document store (dumpProperty sampleProperty) freshOid
  if isValidObjectId r.1 then
    (.ok (toPublicId (findOneById r.2 (oidCanon r.1))), r.2)
  else
    (.error (.http 500 "Internal Server Error"), r.2)

/-! ### Helper lemmas -/

theorem exceptBind_ok_inv {ε α β : Type} {x : Except ε α} {f : α → Except ε β} {b : β}
    (h : x >>= f = .ok b) : ∃ a, x = .ok a ∧ f a = .ok b := by
  cases x with
  | error e => simp [Bind.bind, Except.bind] at h
  | ok a => exact ⟨a, rfl, by simpa [Bind.bind, Except.bind] using h⟩

theorem lookupVal_renderDoc (d : Doc) (k : String) :
    lookupVal (renderDoc d) k = (lookupVal d k).map renderVal := by
  induction d with
  | nil => rfl
  | cons kv rest ih =>
    obtain ⟨k', v⟩ := kv
    by_cases h : k' == k <;> simp [renderDoc, lookupVal, h] <;> simpa [renderDoc] using ih

theorem lookupVal_eraseKey_self (d : Doc) (k : String) :
    lookupVal (eraseKey d k) k = none := by
  induction d with
  | nil => rfl
  | cons kv rest ih =>
    obtain ⟨k', v⟩ := kv
    by_cases h : k' == k <;> simp [eraseKey, lookupVal, h] at ih ⊢ <;> simpa [eraseKey] using ih

theorem lookupVal_eraseKey_ne (d : Doc) (k k' : String) (hne : k' ≠ k) :
    lookupVal (eraseKey d k) k' = lookupVal d k' := by
  induction d with
  | nil => rfl
  | cons kv rest ih =>
    obtain ⟨k0, v⟩ := kv
    by_cases h : k0 == k
    · have : ¬(k0 == k') := by
        intro hk; exact hne (((eq_of_beq hk).symm.trans (eq_of_beq h)).symm ▸ rfl)
      simp [eraseKey, lookupVal, h, this] at ih ⊢
      simpa [eraseKey] using ih
    · by_cases h2 : k0 == k' <;> simp [eraseKey, lookupVal, h, h2] <;> simpa [eraseKey] using ih

theorem lookupVal_setKey_self (d : Doc) (k : String) (v : Val) :
    lookupVal (setKey d k v) k = some v := by
  induction d with
  | nil => simp [setKey, lookupVal]
  | cons kv rest ih =>
    obtain ⟨k', w⟩ := kv
    by_cases hk : k' == k
    · simp [setKey, hk, lookupVal]
    · simpa [setKey, hk, lookupVal] using ih

theorem lookupVal_setKey_ne (d : Doc) (k k' : String) (v : Val) (hne : k' ≠ k) :
    lookupVal (setKey d k v) k' = lookupVal d k' := by
  have hkk : ¬(k == k') := fun hc => hne (eq_of_beq hc).symm
  induction d with
  | nil => simp [setKey, lookupVal, hkk]
  | cons kv rest ih =>
    obtain ⟨k0, w⟩ := kv
    by_cases hk : k0 == k
    · have hk0 : ¬(k0 == k') := fun hc =>
        hne (((eq_of_beq hc).symm.trans (eq_of_beq hk)).symm ▸ rfl)
      simp [setKey, hk, lookupVal, hkk, hk0]
    · by_cases h2 : k0 == k' <;> simp [setKey, hk, lookupVal, h2] <;> exact ih

theorem setKey_ne_nil (d : Doc) (k : String) (v : Val) : setKey d k v ≠ [] := by
  cases d with
  | nil => simp [setKey]
  | cons kv rest =>
    obtain ⟨k', w⟩ := kv
    by_cases hk : k' == k <;> simp [setKey, hk]

theorem renderDoc_isEmpty (d : Doc) : (renderDoc d).isEmpty = d.isEmpty := by
  cases d <;> rfl

theorem renderVal_idem (v : Val) : renderVal (renderVal v) = renderVal v := by
  cases v <;> rfl

theorem renderVal_of_not_truthy (v : Val) (h : pyTruthy v = false) : renderVal v = v := by
  cases v <;> first | rfl | simp [pyTruthy] at h

theorem renderDoc_idem (d : Doc) : renderDoc (renderDoc d) = renderDoc d := by
  induction d with
  | nil => rfl
  | cons kv rest ih =>
    simp only [renderDoc, List.map_cons, List.map_map] at ih ⊢
    simp [renderVal_idem, ih]

theorem findOneById_append (store tail : Store) (o : String)
    (h : ∀ d ∈ store, lookupVal d "_id" ≠ some (.oid o)) :
    findOneById (store ++ tail) o = findOneById tail o := by
  induction store with
  | nil => rfl
  | cons d rest ih =>
    have hd : (match lookupVal d "_id" with
        | some (.oid s) => s == o
        | _ => false) = false := by
      cases hL : lookupVal d "_id" with
      | none => rfl
      | some v =>
        cases v <;> try rfl
        next s =>
          by_cases hs : s == o
          · exact absurd (hL.trans (by rw [eq_of_beq hs])) (h d (by simp))
          · simpa using hs
    simp only [List.cons_append, findOneById, List.find?] at ih ⊢
    rw [hd]
    exact ih (fun d' hd' => h d' (by simp [hd']))

theorem lookupVal_append (d1 d2 : Doc) (k : String) :
    lookupVal (d1 ++ d2) k =
      (match lookupVal d1 k with
       | some v => some v
       | none => lookupVal d2 k) := by
  induction d1 with
  | nil => rfl
  | cons kv rest ih =>
    obtain ⟨k', v⟩ := kv
    by_cases hk : k' == k <;> simp [lookupVal, hk] <;> exact ih

theorem eraseKey_of_lookupVal_none (d : Doc) (k : String) (h : lookupVal d k = none) :
    eraseKey d k = d := by
  induction d with
  | nil => rfl
  | cons kv rest ih =>
    obtain ⟨k', v⟩ := kv
    by_cases hk : k' == k <;> simp [lookupVal, hk] at h <;> simp [eraseKey, hk] at ih ⊢
    simpa [eraseKey] using ih h

theorem setKey_of_lookupVal_none (d : Doc) (k : String) (v : Val) (h : lookupVal d k = none) :
    setKey d k v = d ++ [(k, v)] := by
  induction d with
  | nil => rfl
  | cons kv rest ih =>
    obtain ⟨k', w⟩ := kv
    by_cases hk : k' == k <;> simp [lookupVal, hk] at h <;> simp [setKey, hk]
    exact ih h

/-- On a freshly stored document (`_id` first, a payload that itself carries
neither an `_id` nor an `id` key) `to_public_id` removes the identifier,
appends the public `id` string, and applies the date rendering pass. -/
theorem toPublicId_inserted (o : String) (payload : Doc)
    (h_id : lookupVal payload "_id" = none)
    (h_pid : lookupVal payload "id" = none) :
    toPublicId (some (("_id", Val.oid o) :: payload)) =
      some (renderDoc (payload ++ [("id", Val.str o)])) := by
  have h1 : lookupVal (("_id", Val.oid o) :: payload) "_id" = some (.oid o) := by
    simp [lookupVal]
  have h2 : eraseKey (("_id", Val.oid o) :: payload) "_id" = payload := by
    have hstep : eraseKey (("_id", Val.oid o) :: payload) "_id" = eraseKey payload "_id" := by
      simp [eraseKey]
    rw [hstep]
    exact eraseKey_of_lookupVal_none payload "_id" h_id
  simp only [toPublicId, List.isEmpty_cons, if_false, Bool.false_eq_true, h1, h2]
  rw [setKey_of_lookupVal_none payload "id" _ h_pid]
  simp [pyTruthy, pyStr]

/-- `find_one` on the collection after an insert with a fresh identifier
returns exactly the inserted document. -/
theorem findOneById_inserted (store : Store) (payload : Doc) (o : String)
    (hfresh : ∀ d ∈ store, lookupVal d "_id" ≠ some (.oid o)) :
    findOneById (store ++ [("_id", Val.oid o) :: payload]) o =
      some (("_id", Val.oid o) :: payload) := by
  rw [findOneById_append store _ o hfresh]
  simp [findOneById, List.find?, lookupVal]

/-- The create-then-fetch pipeline shared by the creation and seed endpoints:
inserting a payload under a fresh canonical identifier and re-reading it by
that identifier yields the public shape of the inserted document, both inside
the creating handler and through a subsequent `get_property`. -/
theorem create_fetch_core (payload : Doc) (store : Store) (o : String)
    (hv : isValidObjectId o = true) (hc : oidCanon o = o)
    (hfresh : ∀ d ∈ store, lookupVal d "_id" ≠ some (.oid o))
    (h_id : lookupVal payload "_id" = none)
    (h_pid : lookupVal payload "id" = none) :
    (create_document store payload o).1 = o ∧
    (create_document store payload o).2 = store ++ [("_id", Val.oid o) :: payload] ∧
    toPublicId (findOneById (create_document store payload o).2 (oidCanon o)) =
      some (renderDoc (payload ++ [("id", Val.str o)])) ∧
    get_property o (some (create_document store payload o).2) =
      .ok (some (renderDoc (payload ++ [("id", Val.str o)]))) := by
  refine ⟨rfl, rfl, ?_, ?_⟩
  · rw [hc]
    unfold create_document
    rw [findOneById_inserted store payload o hfresh]
    exact toPublicId_inserted o payload h_id h_pid
  · simp only [get_property, create_document, hv, hc, if_true]
    rw [findOneById_inserted store payload o hfresh]
    simp [toPublicId_inserted o payload h_id h_pid]

theorem toPublicId_idem (od : Option Doc) : toPublicId (toPublicId od) = toPublicId od := by
  match od with
  | none => rfl
  | some d =>
    cases hE : d.isEmpty with
    | true => simp [toPublicId, hE]
    | false =>
      cases hL : lookupVal d "_id" with
      | none =>
        have h1 : toPublicId (some d) = some (renderDoc d) := by
          simp [toPublicId, hE, hL]
        have hE2 : (renderDoc d).isEmpty = false := by rw [renderDoc_isEmpty, hE]
        have hL2 : lookupVal (renderDoc d) "_id" = none := by
          rw [lookupVal_renderDoc, hL]; rfl
        rw [h1]
        simp [toPublicId, hE2, hL2, renderDoc_idem]
      | some v =>
        cases hT : pyTruthy v with
        | false =>
          have h1 : toPublicId (some d) = some (renderDoc d) := by
            simp [toPublicId, hE, hL, hT]
          have hE2 : (renderDoc d).isEmpty = false := by rw [renderDoc_isEmpty, hE]
          have hL2 : lookupVal (renderDoc d) "_id" = some v := by
            rw [lookupVal_renderDoc, hL]
            simp [renderVal_of_not_truthy v hT]
          rw [h1]
          simp [toPublicId, hE2, hL2, hT, renderDoc_idem]
        | true =>
          have h1 : toPublicId (some d) =
              some (renderDoc (setKey (eraseKey d "_id") "id" (.str (pyStr v)))) := by
            simp [toPublicId, hE, hL, hT]
          have hE2 :
              (renderDoc (setKey (eraseKey d "_id") "id" (.str (pyStr v)))).isEmpty = false := by
            rw [renderDoc_isEmpty]
            cases hsk : setKey (eraseKey d "_id") "id" (.str (pyStr v)) with
            | nil => exact absurd hsk (setKey_ne_nil _ _ _)
            | cons a b => rfl
          have hL2 :
              lookupVal (renderDoc (setKey (eraseKey d "_id") "id" (.str (pyStr v)))) "_id" =
                none := by
            rw [lookupVal_renderDoc, lookupVal_setKey_ne _ _ _ _ (by decide),
                lookupVal_eraseKey_self]
            rfl
          rw [h1]
          simp [toPublicId, hE2, hL2, renderDoc_idem]

/-- Inversion of a successful `Property` validation: every field extractor
succeeded and produced the corresponding field of the validated record. -/
theorem parseProperty_ok (raw : Doc) (p : Property) (h : parseProperty raw = .ok p) :
    reqStr raw "title" = .ok p.title ∧
    reqStr raw "address" = .ok p.address ∧
    reqStr raw "city" = .ok p.city ∧
    reqStr raw "state" = .ok p.state ∧
    reqStr raw "zipcode" = .ok p.zipcode ∧
    reqIntGe0 raw "price" = .ok p.price ∧
    reqStrD raw "status" "For Sale" = .ok p.status ∧
    reqFloatGe0 raw "beds" = .ok p.beds ∧
    reqFloatGe0 raw "baths" = .ok p.baths ∧
    reqIntGe0 raw "sqft" = .ok p.sqft ∧
    urlListD raw "photos" = .ok p.photos ∧
    strListD raw "features" = .ok p.features ∧
    strListD raw "schools" = .ok p.schools ∧
    strListD raw "open_house" = .ok p.open_house := by
  unfold parseProperty at h
  obtain ⟨title, e1, h⟩ := exceptBind_ok_inv h
  obtain ⟨address, e2, h⟩ := exceptBind_ok_inv h
  obtain ⟨city, e3, h⟩ := exceptBind_ok_inv h
  obtain ⟨state, e4, h⟩ := exceptBind_ok_inv h
  obtain ⟨zipcode, e5, h⟩ := exceptBind_ok_inv h
  obtain ⟨price, e6, h⟩ := exceptBind_ok_inv h
  obtain ⟨status, e7, h⟩ := exceptBind_ok_inv h
  obtain ⟨beds, e8, h⟩ := exceptBind_ok_inv h
  obtain ⟨baths, e9, h⟩ := exceptBind_ok_inv h
  obtain ⟨sqft, e10, h⟩ := exceptBind_ok_inv h
  obtain ⟨lot_size, e11, h⟩ := exceptBind_ok_inv h
  obtain ⟨year_built, e12, h⟩ := exceptBind_ok_inv h
  obtain ⟨property_type, e13, h⟩ := exceptBind_ok_inv h
  obtain ⟨hoa_fee, e14, h⟩ := exceptBind_ok_inv h
  obtain ⟨price_per_sqft, e15, h⟩ := exceptBind_ok_inv h
  obtain ⟨days_on_market, e16, h⟩ := exceptBind_ok_inv h
  obtain ⟨photos, e17, h⟩ := exceptBind_ok_inv h
  obtain ⟨video_url, e18, h⟩ := exceptBind_ok_inv h
  obtain ⟨virtual_tour_url, e19, h⟩ := exceptBind_ok_inv h
  obtain ⟨description, e20, h⟩ := exceptBind_ok_inv h
  obtain ⟨features, e21, h⟩ := exceptBind_ok_inv h
  obtain ⟨latitude, e22, h⟩ := exceptBind_ok_inv h
  obtain ⟨longitude, e23, h⟩ := exceptBind_ok_inv h
  obtain ⟨schools, e24, h⟩ := exceptBind_ok_inv h
  obtain ⟨open_house, e25, h⟩ := exceptBind_ok_inv h
  obtain ⟨agent_name, e26, h⟩ := exceptBind_ok_inv h
  obtain ⟨agent_phone, e27, h⟩ := exceptBind_ok_inv h
  obtain ⟨agent_email, e28, h⟩ := exceptBind_ok_inv h
  obtain ⟨created_at, e29, h⟩ := exceptBind_ok_inv h
  obtain ⟨updated_at, e30, h⟩ := exceptBind_ok_inv h
  cases h
  exact ⟨e1, e2, e3, e4, e5, e6, e7, e8, e9, e10, e17, e21, e24, e25⟩

/-- Looking up the public `id` field of a published document. -/
theorem lookupVal_pub_id (pd : Doc) (o : String) (hid : lookupVal pd "id" = none) :
    lookupVal (renderDoc (pd ++ [("id", Val.str o)])) "id" = some (.str o) := by
  rw [lookupVal_renderDoc, lookupVal_append, hid]
  rfl

/-- Looking up any other field of a published document reads the payload
through the date rendering pass. -/
theorem lookupVal_pub_other (pd : Doc) (o : String) (k : String) (hk : k ≠ "id") :
    lookupVal (renderDoc (pd ++ [("id", Val.str o)])) k = (lookupVal pd k).map renderVal := by
  rw [lookupVal_renderDoc, lookupVal_append]
  cases hL : lookupVal pd k with
  | some v => rfl
  | none =>
    have h2 : ¬("id" == k) := fun hc => hk (eq_of_beq hc).symm
    simp [lookupVal, h2]

/-! ### Claim theorems -/

/-- C10: the public-shape conversion is idempotent and side-effect free — for
every optional document, applying `to_public_id` twice gives the same result
as applying it once, and the caller's mapping is unchanged by the call (the
source works on the copy `d = dict(doc)` and mutates only the copy). -/
theorem claim_to_public_id_idempotent :
    ∀ od : Option Doc,
      (toPublicIdRun od).1 = od ∧ toPublicId (toPublicId od) = toPublicId od :=
  fun od => ⟨rfl, toPublicId_idem od⟩

/-- C2: for every database state — handle absent, handle present but the
collection listing failing, or fully working — `GET /test` returns its
diagnostic object normally (never a raised error), and a listing failure is
rendered as descriptive text carrying the first 60 characters of the
underlying failure description. -/
theorem claim_test_endpoint_total :
    ∀ (db : Option DbHandle) (databaseUrlSet : Bool),
      ∃ r, test_database db databaseUrlSet = .ok r ∧
        r.backend = "✅ Running" ∧
        r.database =
          (match db with
           | none => "❌ Not Available"
           | some h =>
             match h.listCollectionNames with
             | .ok _ => "✅ Connected & Working"
             | .error e => "⚠️ Connected but Error: " ++ e.take 60) := by
  intro db urlSet
  cases db with
  | none => exact ⟨_, rfl, rfl, rfl⟩
  | some h =>
    cases hL : h.listCollectionNames with
    | ok cols =>
      refine ⟨{ backend := "✅ Running", database := "✅ Connected & Working",
                database_url := if urlSet then "✅ Set" else "❌ Not Set",
                database_name := h.name, connection_status := "Connected",
                collections := cols }, ?_, rfl, ?_⟩
      · simp [test_database, hL]
      · simp [hL]
    | error e =>
      refine ⟨{ backend := "✅ Running",
                database := "⚠️ Connected but Error: " ++ e.take 60,
                database_url := if urlSet then "✅ Set" else "❌ Not Set",
                database_name := h.name, connection_status := "Connected",
                collections := [] }, ?_, rfl, ?_⟩
      · simp [test_database, hL]
      · simp [hL]

/-- C8 counterexample: with the database handle absent and the
`DATABASE_URL` environment value set, the `database_url` field of the
`/test` response still reads "❌ Not Set" — the field does not report the
environment state when the handle is absent, so the claim as stated fails. -/
theorem claim_database_url_counterexample :
    ∃ r, test_database none true = .ok r ∧
      r.database_url = "❌ Not Set" ∧ r.database_url ≠ "✅ Set" :=
  ⟨_, rfl, rfl, by decide⟩

/-- C8 amended: the `database_url` field of the `/test` response reports
whether the `DATABASE_URL` environment value is set only when a database
handle exists; when the handle is absent the field always reads
"❌ Not Set" regardless of the environment. -/
theorem claim_database_url_amended :
    ∀ (db : Option DbHandle) (databaseUrlSet : Bool),
      ∃ r, test_database db databaseUrlSet = .ok r ∧
        r.database_url =
          (match db with
           | none => "❌ Not Set"
           | some _ => if databaseUrlSet then "✅ Set" else "❌ Not Set") := by
  intro db urlSet
  cases db with
  | none => exact ⟨_, rfl, rfl⟩
  | some h =>
    cases hL : h.listCollectionNames with
    | ok cols =>
      refine ⟨{ backend := "✅ Running", database := "✅ Connected & Working",
                database_url := if urlSet then "✅ Set" else "❌ Not Set",
                database_name := h.name, connection_status := "Connected",
                collections := cols }, ?_, rfl⟩
      simp [test_database, hL]
    | error e =>
      refine ⟨{ backend := "✅ Running",
                database := "⚠️ Connected but Error: " ++ e.take 60,
                database_url := if urlSet then "✅ Set" else "❌ Not Set",
                database_name := h.name, connection_status := "Connected",
                collections := [] }, ?_, rfl⟩
      simp [test_database, hL]

/-- C3: on every document with a store-assigned object identifier under
`_id` (as every document handed to the conversion by an endpoint has), the
public-shape conversion drops the `_id` key, re-emits the identifier as the
string field `id`, renders every date-time valued field as its ISO-8601
string, passes all other fields through unchanged, and maps an absent
document to itself without raising; the result never contains the `_id`
key. -/
theorem claim_to_public_id_shape :
    ∀ (d : Doc) (o : String),
      lookupVal d "_id" = some (.oid o) →
      toPublicId none = none ∧
      ∃ d', toPublicId (some d) = some d' ∧
        lookupVal d' "_id" = none ∧
        lookupVal d' "id" = some (.str o) ∧
        (∀ k, k ≠ "_id" → k ≠ "id" →
          lookupVal d' k = (lookupVal d k).map renderVal) ∧
        (∀ k iso, k ≠ "_id" → k ≠ "id" → lookupVal d k = some (.dtime iso) →
          lookupVal d' k = some (.str iso)) := by
  intro d o hL
  have hE : d.isEmpty = false := by
    cases d with
    | nil => simp [lookupVal] at hL
    | cons a b => rfl
  refine ⟨rfl, renderDoc (setKey (eraseKey d "_id") "id" (.str o)), ?_, ?_, ?_, ?_, ?_⟩
  · simp [toPublicId, hE, hL, pyTruthy, pyStr]
  · rw [lookupVal_renderDoc, lookupVal_setKey_ne _ _ _ _ (by decide), lookupVal_eraseKey_self]
    rfl
  · rw [lookupVal_renderDoc, lookupVal_setKey_self]
    rfl
  · intro k hk1 hk2
    rw [lookupVal_renderDoc, lookupVal_setKey_ne _ _ _ _ hk2, lookupVal_eraseKey_ne _ _ _ hk1]
  · intro k iso hk1 hk2 hdt
    rw [lookupVal_renderDoc, lookupVal_setKey_ne _ _ _ _ hk2,
        lookupVal_eraseKey_ne _ _ _ hk1, hdt]
    rfl

/-- A document with an identifier and a date-time field, exercising the
public-shape conversion. -/
def docC3 : Doc :=
  [("_id", .oid "0123456789abcdef01234567"), ("title", .str "T"),
   ("created_at", .dtime "2024-05-01T10:00:00")]

theorem claim_to_public_id_shape_witness :
    toPublicId none = none ∧
    ∃ d', toPublicId (some docC3) = some d' ∧
      lookupVal d' "_id" = none ∧
      lookupVal d' "id" = some (.str "0123456789abcdef01234567") ∧
      (∀ k, k ≠ "_id" → k ≠ "id" →
        lookupVal d' k = (lookupVal docC3 k).map renderVal) ∧
      (∀ k iso, k ≠ "_id" → k ≠ "id" → lookupVal docC3 k = some (.dtime iso) →
        lookupVal d' k = some (.str iso)) :=
  claim_to_public_id_shape docC3 "0123456789abcdef01234567" (by rfl)

/-- C6: fetching a property by an identifier that is syntactically malformed
or matches no stored document returns a 404 with a plain message, never a
server fault. -/
theorem claim_get_property_404 :
    ∀ (property_id : String) (store : Store),
      (isValidObjectId property_id = false ∨
        findOneById store (oidCanon property_id) = none) →
      get_property property_id (some store) =
        .error (.http 404 "Property not found") := by
  intro pid store h
  rcases h with h | h
  · simp [get_property, h]
  · cases hv : isValidObjectId pid <;> simp [get_property, hv, h]

theorem claim_get_property_404_witness :
    isValidObjectId "not-an-id" = false ∧
    get_property "not-an-id" (some []) = .error (.http 404 "Property not found") :=
  ⟨by decide, claim_get_property_404 "not-an-id" [] (Or.inl (by decide))⟩

/-- An inquiry body whose `property_id` is present but the empty string. -/
def inquiryEmptyPid : InquiryIn :=
  { property_id := some "", name := "Jane", email := "jane@example.com" }

/-- C5 counterexample: an inquiry whose `property_id` is present but equal to
the empty string — a value that is not a syntactically valid identifier —
does not fail with 400: the truthiness check `if payload.property_id:` skips
the syntax check for the empty string, the inquiry is persisted and the
operation returns status "received". -/
theorem claim_inquiry_empty_pid_counterexample :
    isValidObjectId "" = false ∧
    create_inquiry inquiryEmptyPid [] "0123456789abcdef01234567" =
      (.ok { id := "0123456789abcdef01234567", status := "received" },
       [[("_id", .oid "0123456789abcdef01234567"),
         ("property_id", .str ""), ("name", .str "Jane"),
         ("email", .str "jane@example.com"), ("phone", .null),
         ("message", .null), ("source", .str "website")]]) :=
  ⟨by decide, by rfl⟩

/-- C5 amended: an inquiry submission fails with 400 (and nothing is
persisted) exactly when `property_id` is present, non-empty and not a
syntactically valid identifier; when `property_id` is absent, empty, or a
well-formed identifier (even one matching no Property), the inquiry is
persisted and the operation returns the new identifier with status
"received". -/
theorem claim_inquiry_validation_amended :
    ∀ (payload : InquiryIn) (store : Store) (freshOid : String),
      ((∃ s, payload.property_id = some s ∧ s ≠ "" ∧ isValidObjectId s = false) →
        create_inquiry payload store freshOid =
          (.error (.http 400 "Invalid property_id"), store)) ∧
      ((payload.property_id = none ∨ payload.property_id = some "" ∨
        (∃ s, payload.property_id = some s ∧ isValidObjectId s = true)) →
        create_inquiry payload store freshOid =
          (.ok { id := freshOid, status := "received" },
           store ++ [("_id", Val.oid freshOid) :: dumpInquiry payload])) := by
  intro payload store freshOid
  constructor
  · rintro ⟨s, hs, hne, hiv⟩
    simp [create_inquiry, pyTruthyOptStr, hs, hne, hiv]
  · rintro (h | h | ⟨s, hs, hv⟩)
    · simp [create_inquiry, pyTruthyOptStr, h, create_document]
    · simp [create_inquiry, pyTruthyOptStr, h, create_document]
    · simp [create_inquiry, pyTruthyOptStr, hs, hv, create_document]

/-- An inquiry body with a present, non-empty, malformed `property_id`. -/
def inquiryBadPid : InquiryIn :=
  { property_id := some "not-an-id", name := "Jane", email := "jane@example.com" }

/-- An inquiry body with no `property_id`. -/
def inquiryNoPid : InquiryIn :=
  { name := "Jane", email := "jane@example.com" }

theorem claim_inquiry_validation_amended_witness :
    create_inquiry inquiryBadPid [] "0123456789abcdef01234567" =
      (.error (.http 400 "Invalid property_id"), []) ∧
    create_inquiry inquiryNoPid [] "0123456789abcdef01234567" =
      (.ok { id := "0123456789abcdef01234567", status := "received" },
       [("_id", Val.oid "0123456789abcdef01234567") :: dumpInquiry inquiryNoPid]) :=
  ⟨(claim_inquiry_validation_amended inquiryBadPid [] "0123456789abcdef01234567").1
      ⟨"not-an-id", rfl, by decide, by decide⟩,
   (claim_inquiry_validation_amended inquiryNoPid [] "0123456789abcdef01234567").2
      (Or.inl rfl)⟩

/-- C9: the inquiry document persisted by a successful submission is exactly
the six declared fields `property_id`, `name`, `email`, `phone`, `message`,
`source` (plus the store-assigned `_id`); any caller-supplied `created_at`
or other unknown body field is discarded by validation before persistence,
so no stored inquiry ever carries a `created_at` value. -/
theorem claim_inquiry_dump_fields :
    ∀ (raw : Doc) (q : InquiryIn) (store : Store) (freshOid : String)
      (resp : InquiryResp) (store' : Store),
      parseInquiryIn raw = .ok q →
      create_inquiry q store freshOid = (.ok resp, store') →
      store' = store ++ [("_id", Val.oid freshOid) :: dumpInquiry q] ∧
      docKeys (dumpInquiry q) =
        ["property_id", "name", "email", "phone", "message", "source"] ∧
      "created_at" ∉ docKeys (("_id", Val.oid freshOid) :: dumpInquiry q) := by
  intro raw q store freshOid resp store' hp hc
  refine ⟨?_, by simp [docKeys, dumpInquiry], by simp [docKeys, dumpInquiry]⟩
  unfold create_inquiry at hc
  cases hcond : (pyTruthyOptStr q.property_id && !isValidObjectId (q.property_id.getD "")) with
  | true => rw [if_pos hcond] at hc; simp at hc
  | false =>
    rw [if_neg (by simp [hcond])] at hc
    simp only [create_document, Prod.mk.injEq] at hc
    exact hc.2.symm

/-- An inquiry body that also supplies a `created_at` value. -/
def rawC9 : Doc :=
  [("name", .str "Jane"), ("email", .str "jane@example.com"),
   ("created_at", .str "2024-01-01T00:00:00")]

/-- The record `rawC9` validates to: the unknown `created_at` key is
ignored. -/
def inquiryC9 : InquiryIn :=
  { property_id := none, name := "Jane", email := "jane@example.com",
    phone := none, message := none, source := some "website" }

theorem claim_inquiry_dump_fields_witness :
    parseInquiryIn rawC9 = .ok inquiryC9 ∧
    ([("_id", Val.oid "0123456789abcdef01234567") :: dumpInquiry inquiryC9] =
        [] ++ [("_id", Val.oid "0123456789abcdef01234567") :: dumpInquiry inquiryC9] ∧
      docKeys (dumpInquiry inquiryC9) =
        ["property_id", "name", "email", "phone", "message", "source"] ∧
      "created_at" ∉
        docKeys (("_id", Val.oid "0123456789abcdef01234567") :: dumpInquiry inquiryC9)) :=
  ⟨rfl, claim_inquiry_dump_fields rawC9 inquiryC9 [] "0123456789abcdef01234567"
    { id := "0123456789abcdef01234567", status := "received" } _ rfl rfl⟩

/-- C4: a Property creation payload that is missing one of the required
fields (title, address, city, state, zipcode, price, beds, baths, sqft) or
whose price or sqft is a negative integer is rejected by validation with a
422 carrying field-level detail, and nothing is persisted. -/
theorem claim_validation_rejects :
    ∀ (raw : Doc) (store : Store) (freshOid : String),
      (lookupVal raw "title" = none ∨ lookupVal raw "address" = none ∨
       lookupVal raw "city" = none ∨ lookupVal raw "state" = none ∨
       lookupVal raw "zipcode" = none ∨ lookupVal raw "price" = none ∨
       lookupVal raw "beds" = none ∨ lookupVal raw "baths" = none ∨
       lookupVal raw "sqft" = none ∨
       (∃ n, lookupVal raw "price" = some (.int n) ∧ n < 0) ∨
       (∃ n, lookupVal raw "sqft" = some (.int n) ∧ n < 0)) →
      ∃ f, create_property raw store freshOid = (.error (.validation f), store) := by
  intro raw store o h
  cases hp : parseProperty raw with
  | error f => exact ⟨f, by simp [create_property, hp]⟩
  | ok p =>
    exfalso
    obtain ⟨h1, h2, h3, h4, h5, h6, h7, h8, h9, h10, h11, h12, h13, h14⟩ :=
      parseProperty_ok raw p hp
    rcases h with h | h | h | h | h | h | h | h | h | ⟨n, hn, hneg⟩ | ⟨n, hn, hneg⟩
    · simp [reqStr, h] at h1
    · simp [reqStr, h] at h2
    · simp [reqStr, h] at h3
    · simp [reqStr, h] at h4
    · simp [reqStr, h] at h5
    · simp [reqIntGe0, h] at h6
    · simp [reqFloatGe0, h] at h8
    · simp [reqFloatGe0, h] at h9
    · simp [reqIntGe0, h] at h10
    · simp [reqIntGe0, hn, not_le.mpr hneg] at h6
    · simp [reqIntGe0, hn, not_le.mpr hneg] at h10

theorem claim_validation_rejects_witness :
    lookupVal [("price", Val.int (-5))] "title" = none ∧
    (∃ f, create_property [("price", Val.int (-5))] [] "0123456789abcdef01234567" =
      (.error (.validation f), [])) :=
  ⟨rfl, claim_validation_rejects [("price", Val.int (-5))] [] "0123456789abcdef01234567"
    (Or.inl rfl)⟩

/-- C1: creating a property from any payload accepted by validation and
immediately fetching it by the returned id yields a record whose fields are
exactly the validated payload's fields (defaults filled: status "For Sale",
photos/features/schools/open_house empty when omitted) with the internal
identifier replaced by the public `id` string — no field is dropped or
altered beyond the date rendering pass. -/
theorem claim_create_roundtrip :
    ∀ (raw : Doc) (p : Property) (store : Store) (o : String),
      parseProperty raw = .ok p →
      isValidObjectId o = true → oidCanon o = o →
      (∀ d ∈ store, lookupVal d "_id" ≠ some (.oid o)) →
      ∃ pub store',
        create_property raw store o = (.ok (some pub), store') ∧
        store' = store ++ [("_id", Val.oid o) :: dumpProperty p] ∧
        get_property o (some store') = .ok (some pub) ∧
        lookupVal pub "id" = some (.str o) ∧
        lookupVal pub "_id" = none ∧
        (∀ k, k ≠ "_id" → k ≠ "id" →
          lookupVal pub k = (lookupVal (dumpProperty p) k).map renderVal) ∧
        (lookupVal raw "status" = none → lookupVal pub "status" = some (.str "For Sale")) ∧
        (lookupVal raw "photos" = none → lookupVal pub "photos" = some (.list [])) ∧
        (lookupVal raw "features" = none → lookupVal pub "features" = some (.list [])) ∧
        (lookupVal raw "schools" = none → lookupVal pub "schools" = some (.list [])) ∧
        (lookupVal raw "open_house" = none → lookupVal pub "open_house" = some (.list [])) := by
  intro raw p store o hp hv hc hfresh
  obtain ⟨h1, h2, h3, h4, h5, h6, h7, h8, h9, h10, h11, h12, h13, h14⟩ :=
    parseProperty_ok raw p hp
  have hdid : lookupVal (dumpProperty p) "_id" = none := rfl
  have hdpid : lookupVal (dumpProperty p) "id" = none := rfl
  obtain ⟨-, -, hpub, hget⟩ :=
    create_fetch_core (dumpProperty p) store o hv hc hfresh hdid hdpid
  simp only [create_document] at hpub hget
  refine ⟨renderDoc (dumpProperty p ++ [("id", Val.str o)]),
          store ++ [("_id", Val.oid o) :: dumpProperty p],
          ?_, rfl, hget, lookupVal_pub_id _ o hdpid, ?_, ?_, ?_, ?_, ?_, ?_, ?_⟩
  · simp [create_property, hp, create_document, hv, hpub]
  · rw [lookupVal_pub_other _ _ _ (by decide), hdid]
    rfl
  · intro k hk1 hk2
    exact lookupVal_pub_other _ _ _ hk2
  · intro hnone
    have hps : p.status = "For Sale" := by
      simp only [reqStrD, hnone] at h7
      exact (Except.ok.inj h7).symm
    rw [lookupVal_pub_other _ _ _ (by decide),
        show lookupVal (dumpProperty p) "status" = some (.str p.status) from rfl, hps]
    rfl
  · intro hnone
    have hph : p.photos = [] := by
      simp only [urlListD, hnone] at h11
      exact (Except.ok.inj h11).symm
    rw [lookupVal_pub_other _ _ _ (by decide),
        show lookupVal (dumpProperty p) "photos" = some (.list (p.photos.map Val.str))
          from rfl, hph]
    rfl
  · intro hnone
    have hfe : p.features = [] := by
      simp only [strListD, hnone] at h12
      exact (Except.ok.inj h12).symm
    rw [lookupVal_pub_other _ _ _ (by decide),
        show lookupVal (dumpProperty p) "features" = some (.list (p.features.map Val.str))
          from rfl, hfe]
    rfl
  · intro hnone
    have hsc : p.schools = [] := by
      simp only [strListD, hnone] at h13
      exact (Except.ok.inj h13).symm
    rw [lookupVal_pub_other _ _ _ (by decide),
        show lookupVal (dumpProperty p) "schools" = some (.list (p.schools.map Val.str))
          from rfl, hsc]
    rfl
  · intro hnone
    have hoh : p.open_house = [] := by
      simp only [strListD, hnone] at h14
      exact (Except.ok.inj h14).symm
    rw [lookupVal_pub_other _ _ _ (by decide),
        show lookupVal (dumpProperty p) "open_house" = some (.list (p.open_house.map Val.str))
          from rfl, hoh]
    rfl

/-- A minimal valid creation payload: all required fields, everything else
omitted. -/
def rawC1 : Doc :=
  [("title", .str "T"), ("address", .str "A"), ("city", .str "C"),
   ("state", .str "S"), ("zipcode", .str "Z"), ("price", .int 100),
   ("beds", .float 2), ("baths", .float 1), ("sqft", .int 500)]

/-- The record `rawC1` validates to, defaults filled. -/
def pC1 : Property :=
  { title := "T", address := "A", city := "C", state := "S", zipcode := "Z",
    price := 100, status := "For Sale", beds := 2, baths := 1, sqft := 500,
    lot_size := none, year_built := none, property_type := none,
    hoa_fee := none, price_per_sqft := none, days_on_market := none,
    photos := [], video_url := none, virtual_tour_url := none,
    description := none, features := [], latitude := none, longitude := none,
    schools := [], open_house := [], agent_name := none, agent_phone := none,
    agent_email := none, created_at := none, updated_at := none }

theorem claim_create_roundtrip_witness :
    parseProperty rawC1 = .ok pC1 ∧
    (∃ pub store',
      create_property rawC1 [] "0123456789abcdef01234567" = (.ok (some pub), store') ∧
      store' = [] ++ [("_id", Val.oid "0123456789abcdef01234567") :: dumpProperty pC1] ∧
      get_property "0123456789abcdef01234567" (some store') = .ok (some pub) ∧
      lookupVal pub "id" = some (.str "0123456789abcdef01234567") ∧
      lookupVal pub "_id" = none ∧
      (∀ k, k ≠ "_id" → k ≠ "id" →
        lookupVal pub k = (lookupVal (dumpProperty pC1) k).map renderVal) ∧
      (lookupVal rawC1 "status" = none →
        lookupVal pub "status" = some (.str "For Sale")) ∧
      (lookupVal rawC1 "photos" = none → lookupVal pub "photos" = some (.list [])) ∧
      (lookupVal rawC1 "features" = none → lookupVal pub "features" = some (.list [])) ∧
      (lookupVal rawC1 "schools" = none → lookupVal pub "schools" = some (.list [])) ∧
      (lookupVal rawC1 "open_house" = none →
        lookupVal pub "open_house" = some (.list []))) :=
  ⟨rfl, claim_create_roundtrip rawC1 pC1 [] "0123456789abcdef01234567"
    rfl (by decide) (by rfl) (by simp)⟩

/-- C7: the seed operation returns the public shape of the hard-coded sample
listing — title "Modern Craftsman with Valley Views", price 1495000, exactly
4 photos — and fetching the same identifier afterwards returns the identical
record. -/
theorem claim_seed :
    ∀ (store : Store) (o : String),
      isValidObjectId o = true → oidCanon o = o →
      (∀ d ∈ store, lookupVal d "_id" ≠ some (.oid o)) →
      ∃ r store',
        seed_sample_property store o = (.ok (some r), store') ∧
        lookupVal r "title" = some (.str "Modern Craftsman with Valley Views") ∧
        lookupVal r "price" = some (.int 1495000) ∧
        (∃ l, lookupVal r "photos" = some (.list l) ∧ l.length = 4) ∧
        get_property o (some store') = .ok (some r) := by
  intro store o hv hc hfresh
  have hdid : lookupVal (dumpProperty sampleProperty) "_id" = none := rfl
  have hdpid : lookupVal (dumpProperty sampleProperty) "id" = none := rfl
  obtain ⟨-, -, hpub, hget⟩ :=
    create_fetch_core (dumpProperty sampleProperty) store o hv hc hfresh hdid hdpid
  simp only [create_document] at hpub hget
  refine ⟨renderDoc (dumpProperty sampleProperty ++ [("id", Val.str o)]),
          store ++ [("_id", Val.oid o) :: dumpProperty sampleProperty],
          ?_, ?_, ?_, ?_, hget⟩
  · simp [seed_sample_property, create_document, hv, hpub]
  · rw [lookupVal_pub_other _ _ _ (by decide)]
    rfl
  · rw [lookupVal_pub_other _ _ _ (by decide)]
    rfl
  · refine ⟨sampleProperty.photos.map Val.str, ?_, rfl⟩
    rw [lookupVal_pub_other _ _ _ (by decide)]
    rfl

theorem claim_seed_witness :
    ∃ r store',
      seed_sample_property [] "0123456789abcdef01234567" = (.ok (some r), store') ∧
      lookupVal r "title" = some (.str "Modern Craftsman with Valley Views") ∧
      lookupVal r "price" = some (.int 1495000) ∧
      (∃ l, lookupVal r "photos" = some (.list l) ∧ l.length = 4) ∧
      get_property "0123456789abcdef01234567" (some store') = .ok (some r) :=
  claim_seed [] "0123456789abcdef01234567" (by decide) (by rfl) (by simp)

end RealEstate
